import Mathlib

/-!
Verification of the NutreGen AI plan-derivation engine (`src/app.py`).

We shallowly embed the three core components:
  * `parse_float` / `compute_plan` — the Plan Calculator (app.py lines 93-97, 171-194);
  * `MEALS` / `filter_meals`       — the Meal Filter         (app.py lines 99-169);
  * `parse_markers`                — the Marker File Parser (not present in
    `src/app.py`; modelled from the specification, see its doc comment).

Python `float` values are modelled as exact rationals (`ℚ`); the handful of
constants involved (multiples of 1/20) are represented exactly by IEEE-adjacent
doubles up to error ≪ any rounding boundary reached below, so rational
arithmetic with round-half-up agrees with the Python computation on every
reachable value.  The string-to-float parse that may fail inside Python's
`float(val)` is abstracted as an `Option ℚ` argument.
-/

/-! ### String helpers (Python `str` semantics) -/

/-- `needle` is a prefix of `hay` (character lists). -/
def isPrefixL : List Char → List Char → Bool
  | [], _ => true
  | _ :: _, [] => false
  | a :: as, b :: bs => a = b && isPrefixL as bs

/-- Python's substring test `needle in hay` on character lists. -/
def containsL (needle : List Char) : List Char → Bool
  | [] => needle.isEmpty
  | c :: t => isPrefixL needle (c :: t) || containsL needle t

/-- Python's `needle in hay` for strings. -/
def strIn (needle hay : String) : Bool :=
  containsL needle.toList hay.toList

/-- Python's `str.lower()` (ASCII case folding, as in the catalog's data). -/
def lower (s : String) : String :=
  String.mk (s.toList.map Char.toLower)

/-! ### Meal catalog and Meal Filter (app.py lines 99-169) -/

structure CatalogEntry where
  meal : String
  idea : String
  notes : String
  tags : List String
deriving DecidableEq, Repr

/-- The fixed 12-entry meal catalog `MEALS` (app.py lines 99-112). -/
def MEALS : List CatalogEntry := [
  ⟨"Breakfast", "Greek yogurt with berries & chia", "High protein", ["vegetarian"]⟩,
  ⟨"Breakfast", "Tofu scramble with spinach", "Vegan protein", ["vegan"]⟩,
  ⟨"Breakfast", "Overnight oats + flax + berries", "Budget, <15m", ["vegan", "vegetarian"]⟩,
  ⟨"Lunch", "Grilled chicken salad + olive oil", "Balanced fats", ["regular", "low-carb"]⟩,
  ⟨"Lunch", "Chickpea & quinoa bowl", "High fibre", ["vegan", "vegetarian"]⟩,
  ⟨"Lunch", "Tuna & mixed bean salad", "Pescatarian, <15m", ["pescatarian"]⟩,
  ⟨"Snack", "Apple + almonds", "Fiber + fats", ["vegan", "vegetarian", "regular"]⟩,
  ⟨"Snack", "Banana + peanut butter", "Budget, <5m", ["vegan", "vegetarian", "regular"]⟩,
  ⟨"Dinner", "Salmon, quinoa, and greens", "Protein + complex carbs", ["pescatarian", "regular"]⟩,
  ⟨"Dinner", "Lentil curry + brown rice", "Plant protein", ["vegan", "vegetarian", "indian"]⟩,
  ⟨"Dinner", "Paneer tikka + salad", "Vegetarian, high protein", ["vegetarian", "indian"]⟩,
  ⟨"Dinner", "Chicken stir-fry + veg + rice", "Quick, balanced", ["regular"]⟩]

/-- An output row `{"meal": ..., "idea": ..., "notes": ...}` of `filter_meals`. -/
structure MealOut where
  meal : String
  idea : String
  notes : String
deriving DecidableEq, Repr

/-- Diet gate (app.py lines 120-123): `if diet and diet != "regular": if diet
not in tags_l: continue`.  Note the Python truthiness test: an empty `diet`
string skips the gate; `tags_l` is the lower-cased tag list. -/
def dietKeeps (diet : String) (tags_l : List String) : Bool :=
  if diet ≠ "" ∧ diet ≠ "regular" then decide (diet ∈ tags_l) else true

/-- One allergy token blocking an entry (body of the loop, app.py lines 127-142). -/
def allergyBlocks (idea_l : String) (a : String) : Bool :=
  let a_l := lower a
  strIn a_l idea_l
  || (a_l = "dairy" && ["yogurt", "paneer", "cheese", "milk"].any (fun x => strIn x idea_l))
  || (a_l = "eggs" && strIn "egg" idea_l)
  || (a_l = "shellfish" && ["prawn", "shrimp", "crab", "lobster"].any (fun x => strIn x idea_l))
  || (a_l = "soy" && strIn "tofu" idea_l)
  || (a_l = "gluten" && ["bread", "wrap", "pasta", "wheat"].any (fun x => strIn x idea_l))
  || (a_l = "nuts" && ["almond", "peanut", "cashew", "walnut", "nut"].any (fun x => strIn x idea_l))

/-- Allergy gate (app.py lines 126-144): the loop sets `blocked` once any
token matches, which is `List.any`. -/
def blocked (allergies : List String) (idea_l : String) : Bool :=
  allergies.any (allergyBlocks idea_l)

/-- Preference gate (app.py lines 146-150).  `p.lower() in tags_l` is list
membership (exact equality against the lower-cased tags) while
`p.lower() in idea_l` is a substring test; an empty preference list is falsy
and skips the gate. -/
def prefKeeps (prefs : List String) (tags_l : List String) (idea_l : String) : Bool :=
  if prefs = [] then true
  else prefs.any (fun p => decide (lower p ∈ tags_l) || strIn (lower p) idea_l)

/-- All three gates combined for one catalog entry (app.py lines 117-150). -/
def keeps (diet : String) (allergies prefs : List String) (e : CatalogEntry) : Bool :=
  let idea_l := lower e.idea
  let tags_l := e.tags.map lower
  dietKeeps diet tags_l && !(blocked allergies idea_l) && prefKeeps prefs tags_l idea_l

/-- Notes annotation for a surviving entry (app.py lines 152-156). -/
def annotate (cook_time budget : String) (e : CatalogEntry) : MealOut :=
  let n := e.notes
  let n := if cook_time = "<15" && !(strIn "Budget" n) then n ++ " • ~<20m" else n
  let n := if budget = "£" && !(strIn "Budget" n) then n ++ " • Budget" else n
  ⟨e.meal, e.idea, n⟩

/-- The collection loop of `filter_meals` (app.py lines 116-160): append each
surviving, annotated entry and break once four have accumulated. -/
def filterLoop (keep : CatalogEntry → Bool) (ann : CatalogEntry → MealOut) :
    List CatalogEntry → List MealOut → List MealOut
  | [], out => out
  | e :: rest, out =>
    if keep e then
      let out' := out ++ [ann e]
      if 4 ≤ out'.length then out' else filterLoop keep ann rest out'
    else filterLoop keep ann rest out

/-- The fixed fallback plan (app.py lines 163-168). -/
def FALLBACK : List MealOut := [
  ⟨"Breakfast", "Overnight oats + flax + berries", "<15m, budget-friendly"⟩,
  ⟨"Lunch", "Bean & veg wrap", "Quick, high fibre"⟩,
  ⟨"Snack", "Banana + peanut butter", "Budget, <5m"⟩,
  ⟨"Dinner", "Stir-fry tofu & veg + rice", "<20m, vegan/vegetarian"⟩]

/-- `filter_meals` (app.py lines 114-169). -/
def filter_meals (diet : String) (allergies prefs : List String)
    (cook_time budget : String) : List MealOut :=
  let out := filterLoop (keeps diet allergies prefs) (annotate cook_time budget) MEALS []
  if out.length < 4 then FALLBACK else out

/-! ### Plan Calculator (app.py lines 93-97 and 171-194) -/

/-- `parse_float` (app.py lines 93-97): `float(val)` may raise, in which case
the default is returned.  The parse itself is abstracted: `none` stands for an
unparseable value, `some q` for a value parsing to `q`. -/
def parse_float (val : Option ℚ) (default : ℚ := 7) : ℚ :=
  val.getD default

/-- Base calorie table `{"Low": 1800, "Moderate": 2200, "High": 2600}.get(activity, 2000)`
(app.py line 172). -/
def baseCalories (activity : String) : ℤ :=
  if activity = "Low" then 1800
  else if activity = "Moderate" then 2200
  else if activity = "High" then 2600
  else 2000

/-- Goal adjustment (app.py lines 173-176). -/
def goalAdjust (goal : String) : ℤ :=
  if goal = "loss" then -250
  else if goal = "gain" then 250
  else 0

/-- `carb_bias` (app.py line 178).  `traits` is the Python list
`request.form.getlist("traits")`, so `"High Carb Sensitivity" in traits` is
list membership, i.e. exact string equality against an element. -/
def carb_bias (traits : List String) : ℚ :=
  if "High Carb Sensitivity" ∈ traits then -(5/100) else 0

/-- `fat_bias` (app.py line 179). -/
def fat_bias (traits : List String) : ℚ :=
  if "Slow Fat Metabolism" ∈ traits then -(5/100) else 0

/-- `protein_bias` after the sleep adjustment (app.py lines 180-184): the flat
trait bonus plus a further 0.05 when the parsed sleep hours are below 6. -/
def protein_bias (traits : List String) (sh : ℚ) : ℚ :=
  (if "High Carb Sensitivity" ∈ traits ∨ "Slow Fat Metabolism" ∈ traits then 5/100 else 0)
  + (if sh < 6 then 5/100 else 0)

/-- `stress_carb_delta` (app.py line 186). -/
def stress_carb_delta (stress : String) : ℚ :=
  if stress = "high" then -(5/100) else 0

/-- Pre-floor carbs fraction `0.35 + carb_bias + stress_carb_delta` (app.py line 188). -/
def carbsPre (traits : List String) (stress : String) : ℚ :=
  35/100 + carb_bias traits + stress_carb_delta stress

/-- Pre-floor fats fraction `0.30 + fat_bias` (app.py line 189). -/
def fatsPre (traits : List String) : ℚ :=
  30/100 + fat_bias traits

/-- Pre-floor protein fraction `0.35 + protein_bias` (app.py line 190);
`sleep_hours` is run through `parse_float` first (app.py line 182). -/
def proteinPre (traits : List String) (sleep_hours : Option ℚ) : ℚ :=
  35/100 + protein_bias traits (parse_float sleep_hours 7)

/-- Floored carbs fraction (app.py line 188). -/
def carbsFloored (traits : List String) (stress : String) : ℚ :=
  max (carbsPre traits stress) (20/100)

/-- Floored fats fraction (app.py line 189). -/
def fatsFloored (traits : List String) : ℚ :=
  max (fatsPre traits) (20/100)

/-- Floored protein fraction (app.py line 190). -/
def proteinFloored (traits : List String) (sleep_hours : Option ℚ) : ℚ :=
  max (proteinPre traits sleep_hours) (25/100)

/-- `total = carbs + fats + protein` (app.py line 191). -/
def macroTotal (traits : List String) (sleep_hours : Option ℚ) (stress : String) : ℚ :=
  carbsFloored traits stress + fatsFloored traits + proteinFloored traits sleep_hours

/-- The macros record (integer percentages). -/
structure Macros where
  carbs : ℤ
  fats : ℤ
  protein : ℤ
deriving DecidableEq, Repr

/-- `compute_plan` (app.py lines 171-194): calorie target plus the normalized,
independently rounded macro percentages. -/
def compute_plan (activity : String) (traits : List String) (goal : String)
    (sleep_hours : Option ℚ) (stress : String) : ℤ × Macros :=
  let base := baseCalories activity + goalAdjust goal
  let carbs := carbsFloored traits stress
  let fats := fatsFloored traits
  let protein := proteinFloored traits sleep_hours
  let total := carbs + fats + protein
  (base, ⟨round (carbs/total * 100), round (fats/total * 100), round (protein/total * 100)⟩)

/-! ### Marker File Parser (modelled from the spec) -/

/-- A record of the Marker Reference Table (spec §3, §6): marker id, trait
name, and the genotype→effect-label mapping (an association list). -/
structure MarkerRecord where
  marker_id : String
  trait_name : String
  genotype_effects : List (String × String)
deriving DecidableEq, Repr

/-- Lookup of a genotype code in a record's genotype-effect mapping. -/
def lookupEffect (ges : List (String × String)) (g : String) : Option String :=
  (ges.find? (fun p => p.1 = g)).map (fun p => p.2)

/-- Python-style split of a string on the tab character (character lists). -/
def splitTabL : List Char → List (List Char)
  | [] => [[]]
  | c :: t =>
    if c = '\t' then [] :: splitTabL t
    else match splitTabL t with
      | [] => [[c]]
      | h :: r => (c :: h) :: r

/-- Split a line on the tab character into its fields. -/
def splitTab (s : String) : List String :=
  (splitTabL s.toList).map String.mk

/-- Modelled from the spec: the Marker File Parser (spec §4.1) is not part of
`src/app.py` (the only source file given); the route only counts the uploaded
file's lines.  Per the spec: a line is a candidate iff its first tab-field
starts with `"rs"`; a candidate with fewer than 2 fields is ignored; field 0
is the marker id and field 1 the genotype code (exact, case-sensitive); if
both resolve against the Reference Table, one DetectedTrait string
`"{trait_name} ({effect_label})"` is emitted; otherwise the line is silently
skipped. -/
def parse_marker_line (table : List MarkerRecord) (line : String) : Option String :=
  match splitTab line with
  | [] => none
  | f0 :: rest =>
    if isPrefixL "rs".toList f0.toList then
      match rest with
      | [] => none
      | f1 :: _ =>
        match table.find? (fun r => r.marker_id = f0) with
        | none => none
        | some r =>
          match lookupEffect r.genotype_effects f1 with
          | none => none
          | some eff => some (r.trait_name ++ " (" ++ eff ++ ")")
    else none

/-- Modelled from the spec: the full best-effort scan over the file's lines,
output in line order, duplicates preserved. -/
def parse_markers (table : List MarkerRecord) (lines : List String) : List String :=
  lines.filterMap (parse_marker_line table)


/-! ### Helper lemmas -/

/-- The empty needle is a substring of every character list. -/
theorem containsL_nil_left : ∀ l : List Char, containsL [] l = true
  | [] => rfl
  | _ :: t => by simp [containsL, isPrefixL]

/-- Python's `"" in s` is `True` for every string `s`. -/
theorem strIn_empty (s : String) : strIn "" s = true :=
  containsL_nil_left s.toList

/-- Unfolding the collection loop: starting from an accumulator shorter than
four, the loop returns the accumulator followed by the annotated survivors,
truncated to fill up to four rows. -/
theorem filterLoop_eq (keep : CatalogEntry → Bool) (ann : CatalogEntry → MealOut) :
    ∀ (l : List CatalogEntry) (acc : List MealOut), acc.length < 4 →
      filterLoop keep ann l acc = acc ++ ((l.filter keep).map ann).take (4 - acc.length)
  | [], acc, _ => by simp [filterLoop]
  | e :: rest, acc, h => by
    by_cases hk : keep e = true
    · rw [List.filter_cons_of_pos hk, List.map_cons]
      have h4 : 4 - acc.length = (3 - acc.length) + 1 := by omega
      rw [h4, List.take_succ_cons]
      by_cases hfull : 4 ≤ (acc ++ [ann e]).length
      · have hacc : (acc ++ [ann e]).length = acc.length + 1 := by simp
        have htake : 3 - acc.length = 0 := by omega
        simp only [filterLoop, hk, if_true, if_pos hfull, htake, List.take_zero]
      · have hlt : (acc ++ [ann e]).length < 4 := by omega
        have ih := filterLoop_eq keep ann rest (acc ++ [ann e]) hlt
        have harith : 4 - (acc ++ [ann e]).length = 3 - acc.length := by simp
        simp only [filterLoop, hk, if_true, if_neg hfull, ih, harith, List.append_assoc,
          List.singleton_append]
    · rw [List.filter_cons_of_neg (by simpa using hk)]
      have ih := filterLoop_eq keep ann rest acc h
      simp only [filterLoop]
      rw [if_neg hk]
      exact ih

/-- `filter_meals` in closed form: annotated survivors truncated to four rows,
with the fallback replacing any under-full result. -/
theorem filter_meals_eq (diet : String) (allergies prefs : List String)
    (cook_time budget : String) :
    filter_meals diet allergies prefs cook_time budget =
      if (MEALS.filter (keeps diet allergies prefs)).length < 4 then FALLBACK
      else ((MEALS.filter (keeps diet allergies prefs)).map
        (annotate cook_time budget)).take 4 := by
  have hloop := filterLoop_eq (keeps diet allergies prefs) (annotate cook_time budget)
    MEALS [] (by norm_num)
  simp only [filter_meals, hloop, List.nil_append, Nat.sub_zero]
  rw [List.length_take, List.length_map]
  rcases Nat.lt_or_ge (MEALS.filter (keeps diet allergies prefs)).length 4 with hlt | hge
  · simp [Nat.min_eq_right (le_of_lt hlt), hlt]
  · have hmin : min 4 (MEALS.filter (keeps diet allergies prefs)).length = 4 :=
      Nat.min_eq_left hge
    have hnlt : ¬ (MEALS.filter (keeps diet allergies prefs)).length < 4 := by omega
    simp [hmin, hnlt]

/-- Filtering with a pointwise-stronger predicate yields at most as many
survivors. -/
theorem length_filter_le_of_imp {α : Type} {p q : α → Bool}
    (h : ∀ x, p x = true → q x = true) :
    ∀ l : List α, (l.filter p).length ≤ (l.filter q).length
  | [] => le_refl _
  | a :: t => by
    have ih := length_filter_le_of_imp h t
    by_cases hp : p a = true
    · rw [List.filter_cons_of_pos hp, List.filter_cons_of_pos (h a hp)]
      simpa using ih
    · rw [List.filter_cons_of_neg (by simpa using hp)]
      rcases Bool.eq_false_or_eq_true (q a) with hq | hq
      · rw [List.filter_cons_of_pos hq]
        exact le_trans ih (by simp)
      · rw [List.filter_cons_of_neg (by simp [hq])]
        exact ih

/-- Dropping the preference gate can only enlarge the survivor set. -/
theorem keeps_imp_keeps_nopref (diet : String) (allergies prefs : List String) :
    ∀ e, keeps diet allergies prefs e = true → keeps diet allergies [] e = true := by
  intro e he
  simp only [keeps, Bool.and_eq_true] at he ⊢
  exact ⟨he.1, by simp [prefKeeps]⟩

/-! ### Claim theorems -/

/-- C3: for every activity string and goal string, the calorie target returned
by `compute_plan` equals `base(activity) + adjust(goal)`, where `base` is the
table `{Low: 1800, Moderate: 2200, High: 2600}` with default 2000 for any
unrecognized activity string, and `adjust` is −250 for goal `"loss"`, +250 for
`"gain"`, and 0 otherwise; in particular activity `"High"` with goal `"loss"`
yields 2350. -/
theorem C3_calories (activity goal : String) (traits : List String)
    (sh : Option ℚ) (stress : String) :
    (compute_plan activity traits goal sh stress).1 = baseCalories activity + goalAdjust goal ∧
    baseCalories "Low" = 1800 ∧ baseCalories "Moderate" = 2200 ∧ baseCalories "High" = 2600 ∧
    (activity ≠ "Low" → activity ≠ "Moderate" → activity ≠ "High" →
      baseCalories activity = 2000) ∧
    goalAdjust "loss" = -250 ∧ goalAdjust "gain" = 250 ∧
    (goal ≠ "loss" → goal ≠ "gain" → goalAdjust goal = 0) ∧
    (compute_plan "High" traits "loss" sh stress).1 = 2350 := by
  refine ⟨rfl, by norm_num +decide [baseCalories], by norm_num +decide [baseCalories],
    by norm_num +decide [baseCalories], ?_, by norm_num +decide [goalAdjust],
    by norm_num +decide [goalAdjust], ?_, ?_⟩
  · intro hl hm hh
    simp [baseCalories, hl, hm, hh]
  · intro hl hg
    simp [goalAdjust, hl, hg]
  · norm_num +decide [compute_plan, baseCalories, goalAdjust]

/-- Witness for C3 at concrete inputs: an unrecognized activity defaults to
2000 and an unrecognized goal to adjustment 0. -/
theorem C3_calories_witness :
    baseCalories "walking" = 2000 ∧ goalAdjust "hold" = 0 :=
  ⟨(C3_calories "walking" "hold" [] none "low").2.2.2.2.1
      (by decide) (by decide) (by decide),
   (C3_calories "walking" "hold" [] none "low").2.2.2.2.2.2.2.1
      (by decide) (by decide)⟩

/-- C4: after flooring (carbs ≥ 0.20, fats ≥ 0.20, protein ≥ 0.25), each
fraction is divided by the sum of all three, so the unrounded fractions sum
to exactly 1; each is then independently rounded to the nearest whole
percent with no re-normalization, and the returned macros are three positive
integers whose sum is 99, 100 or 101. -/
theorem C4_macros (activity : String) (traits : List String) (goal : String)
    (sh : Option ℚ) (stress : String) :
    carbsFloored traits stress / macroTotal traits sh stress
      + fatsFloored traits / macroTotal traits sh stress
      + proteinFloored traits sh / macroTotal traits sh stress = 1 ∧
    (compute_plan activity traits goal sh stress).2 =
      ⟨round (carbsFloored traits stress / macroTotal traits sh stress * 100),
       round (fatsFloored traits / macroTotal traits sh stress * 100),
       round (proteinFloored traits sh / macroTotal traits sh stress * 100)⟩ ∧
    0 < (compute_plan activity traits goal sh stress).2.carbs ∧
    0 < (compute_plan activity traits goal sh stress).2.fats ∧
    0 < (compute_plan activity traits goal sh stress).2.protein ∧
    ((compute_plan activity traits goal sh stress).2.carbs
        + (compute_plan activity traits goal sh stress).2.fats
        + (compute_plan activity traits goal sh stress).2.protein = 99 ∨
      (compute_plan activity traits goal sh stress).2.carbs
        + (compute_plan activity traits goal sh stress).2.fats
        + (compute_plan activity traits goal sh stress).2.protein = 100 ∨
      (compute_plan activity traits goal sh stress).2.carbs
        + (compute_plan activity traits goal sh stress).2.fats
        + (compute_plan activity traits goal sh stress).2.protein = 101) := by
  refine ⟨?_, rfl, ?_⟩
  · by_cases h1 : "High Carb Sensitivity" ∈ traits <;>
      by_cases h2 : "Slow Fat Metabolism" ∈ traits <;>
      by_cases h3 : parse_float sh 7 < 6 <;>
      by_cases h4 : stress = "high" <;>
      norm_num [carbsFloored, fatsFloored, proteinFloored, macroTotal, carbsPre, fatsPre,
        proteinPre, carb_bias, fat_bias, protein_bias, stress_carb_delta, h1, h2, h3, h4,
        max_def]
  · by_cases h1 : "High Carb Sensitivity" ∈ traits <;>
      by_cases h2 : "Slow Fat Metabolism" ∈ traits <;>
      by_cases h3 : parse_float sh 7 < 6 <;>
      by_cases h4 : stress = "high" <;>
      norm_num [compute_plan, carbsFloored, fatsFloored, proteinFloored, macroTotal,
        carbsPre, fatsPre, proteinPre, carb_bias, fat_bias, protein_bias,
        stress_carb_delta, h1, h2, h3, h4, max_def, round_eq]

/-- C7: an unparseable sleep_hours value is substituted with the default 7.0,
so no sleep bonus applies; a parsed value strictly below 6 adds a further
0.05 to the protein fraction, stacking with the trait-driven bonus; in
particular sleep_hours = "5" (parsing to 5) yields the extra 0.05 bonus
regardless of trait content. -/
theorem C7_sleep (traits : List String) (sh : Option ℚ) :
    parse_float none 7 = 7 ∧
    proteinPre traits none = 35/100 +
      (if "High Carb Sensitivity" ∈ traits ∨ "Slow Fat Metabolism" ∈ traits
        then 5/100 else 0) ∧
    (parse_float sh 7 < 6 →
      proteinPre traits sh = 35/100 +
        (if "High Carb Sensitivity" ∈ traits ∨ "Slow Fat Metabolism" ∈ traits
          then 5/100 else 0) + 5/100) ∧
    proteinPre traits (some 5) = proteinPre traits none + 5/100 := by
  refine ⟨rfl, ?_, ?_, ?_⟩
  · norm_num [proteinPre, protein_bias, parse_float]
  · intro h
    simp only [proteinPre, protein_bias, if_pos h]
    ring
  · norm_num [proteinPre, protein_bias, parse_float]
    ring

/-- Witness for C7: with trait "High Carb Sensitivity" present and sleep
hours 5 the pre-floor protein fraction is 0.35 + 0.05 + 0.05 = 0.45. -/
theorem C7_sleep_witness :
    proteinPre ["High Carb Sensitivity"] (some 5) = 45/100 := by
  have h := (C7_sleep ["High Carb Sensitivity"] (some 5)).2.2.1
    (by norm_num [parse_float])
  rw [h]
  norm_num +decide

/-- C1 counterexample: the claim predicts pre-floor carbs 0.30 and protein
0.40 for traits = {"High Carb Sensitivity (increased)"}, activity Moderate,
goal maintain, sleep 8, stress low; the code's membership test is exact
string equality on a list element, not substring search, so no bias fires. -/
theorem C1_counterexample :
    ¬ (carbsPre ["High Carb Sensitivity (increased)"] "low" = 30/100 ∧
       proteinPre ["High Carb Sensitivity (increased)"] (some 8) = 40/100) := by
  intro h
  have h1 := h.1
  norm_num +decide [carbsPre, carb_bias, stress_carb_delta] at h1

/-- C1 amended: the trait-driven bias fires on exact membership of the
literal trait label in the traits collection (not on substring containment
inside a longer DetectedTrait string): an element equal to "High Carb
Sensitivity" subtracts 0.05 from carbs, an element equal to "Slow Fat
Metabolism" subtracts 0.05 from fats, and either adds a single flat 0.05 to
protein; consequently for traits = {"High Carb Sensitivity (increased)"},
sleep_hours = "8", stress = "low", the pre-floor carbs and protein fractions
are both 0.35 (no bias fires). -/
theorem C1_amended (traits : List String) (stress : String) (sh : Option ℚ) :
    ("High Carb Sensitivity" ∈ traits →
      carbsPre traits stress = 30/100 + stress_carb_delta stress) ∧
    ("High Carb Sensitivity" ∉ traits →
      carbsPre traits stress = 35/100 + stress_carb_delta stress) ∧
    ("Slow Fat Metabolism" ∈ traits → fatsPre traits = 25/100) ∧
    ("Slow Fat Metabolism" ∉ traits → fatsPre traits = 30/100) ∧
    ("High Carb Sensitivity" ∈ traits ∨ "Slow Fat Metabolism" ∈ traits →
      proteinPre traits sh = 40/100 + (if parse_float sh 7 < 6 then 5/100 else 0)) ∧
    carbsPre ["High Carb Sensitivity (increased)"] "low" = 35/100 ∧
    proteinPre ["High Carb Sensitivity (increased)"] (some 8) = 35/100 := by
  refine ⟨?_, ?_, ?_, ?_, ?_, ?_, ?_⟩
  · intro h
    simp only [carbsPre, carb_bias, if_pos h]
    ring
  · intro h
    simp only [carbsPre, carb_bias, if_neg h]
    ring
  · intro h
    simp only [fatsPre, fat_bias, if_pos h]
    norm_num
  · intro h
    simp only [fatsPre, fat_bias, if_neg h]
    norm_num
  · intro h
    simp only [proteinPre, protein_bias, if_pos h]
    ring
  · norm_num +decide [carbsPre, carb_bias, stress_carb_delta]
  · norm_num +decide [proteinPre, protein_bias, parse_float]

/-- Witness for C1 amended: with both trait labels present exactly, carbs
drop to 0.30, fats to 0.25, and protein gains the single flat bonus. -/
theorem C1_amended_witness :
    carbsPre ["High Carb Sensitivity", "Slow Fat Metabolism"] "low"
        = 30/100 + stress_carb_delta "low" ∧
    fatsPre ["High Carb Sensitivity", "Slow Fat Metabolism"] = 25/100 ∧
    proteinPre ["High Carb Sensitivity", "Slow Fat Metabolism"] none
        = 40/100 + (if parse_float none 7 < 6 then 5/100 else 0) :=
  ⟨(C1_amended ["High Carb Sensitivity", "Slow Fat Metabolism"] "low" none).1
      (by decide),
   (C1_amended ["High Carb Sensitivity", "Slow Fat Metabolism"] "low" none).2.2.1
      (by decide),
   (C1_amended ["High Carb Sensitivity", "Slow Fat Metabolism"] "low" none).2.2.2.2.1
      (Or.inl (by decide))⟩

/-- C8: for every input, the meal list returned by `filter_meals` has length
exactly four: collection stops once four survivors have accumulated, and the
four-entry fallback replaces any shorter result. -/
theorem C8_length (diet : String) (allergies prefs : List String)
    (cook_time budget : String) :
    (filter_meals diet allergies prefs cook_time budget).length = 4 := by
  rw [filter_meals_eq]
  rcases Nat.lt_or_ge (MEALS.filter (keeps diet allergies prefs)).length 4 with hlt | hge
  · rw [if_pos hlt]
    rfl
  · rw [if_neg (by omega), List.length_take, List.length_map]
    omega

/-- C2: whenever fewer than four catalog entries survive the three gates, the
returned list is exactly the fixed four-entry fallback plan, with none of the
partial matches merged in; in particular diet "vegan" with allergies
{dairy, eggs, shellfish, soy, gluten, nuts} returns exactly the fallback, for
every preference list, cook time and budget. -/
theorem C2_fallback (diet : String) (allergies prefs : List String)
    (cook_time budget : String) :
    ((MEALS.filter (keeps diet allergies prefs)).length < 4 →
      filter_meals diet allergies prefs cook_time budget = FALLBACK) ∧
    filter_meals "vegan" ["dairy", "eggs", "shellfish", "soy", "gluten", "nuts"]
      prefs cook_time budget = FALLBACK := by
  constructor
  · intro h
    rw [filter_meals_eq, if_pos h]
  · have hmono := length_filter_le_of_imp
      (keeps_imp_keeps_nopref "vegan"
        ["dairy", "eggs", "shellfish", "soy", "gluten", "nuts"] prefs) MEALS
    have hlen : (MEALS.filter (keeps "vegan"
        ["dairy", "eggs", "shellfish", "soy", "gluten", "nuts"] [])).length = 3 := by
      decide
    rw [filter_meals_eq, if_pos (by omega)]

/-- Witness for C2 at the over-constrained input with empty preferences. -/
theorem C2_fallback_witness :
    filter_meals "vegan" ["dairy", "eggs", "shellfish", "soy", "gluten", "nuts"]
      [] "" "" = FALLBACK :=
  (C2_fallback "vegan" ["dairy", "eggs", "shellfish", "soy", "gluten", "nuts"]
    [] "" "").1 (by decide)

/-- C5 counterexample: the claim says diet "Vegan" keeps an entry tagged
"vegan" (case-insensitive comparison); the code lower-cases only the entry's
tags, never the diet string, so the vegan-tagged tofu-scramble catalog entry
is dropped for diet "Vegan" even with no allergies and no preferences. -/
theorem C5_counterexample :
    keeps "Vegan" [] []
      ⟨"Breakfast", "Tofu scramble with spinach", "Vegan protein", ["vegan"]⟩ = false := by
  decide

/-- C5 amended: for a supplied diet other than "regular", an entry passes the
diet gate iff the lower-cased tag list contains the diet string verbatim —
only the tags are lower-cased, so the comparison is case-sensitive on the
diet side and diet "Vegan" does not match tag "vegan"; entries failing the
gate are dropped, not substituted. -/
theorem C5_amended (diet : String) (allergies prefs : List String) (e : CatalogEntry)
    (h1 : diet ≠ "") (h2 : diet ≠ "regular") :
    (dietKeeps diet (e.tags.map lower) = true ↔ diet ∈ e.tags.map lower) ∧
    (diet ∉ e.tags.map lower → keeps diet allergies prefs e = false) := by
  constructor
  · simp [dietKeeps, h1, h2]
  · intro h
    simp [keeps, dietKeeps, h1, h2, h]

/-- Witness for C5 amended: an exact lower-case match passes the gate, and
the capitalized diet "Vegan" drops a vegan-tagged entry. -/
theorem C5_amended_witness :
    dietKeeps "pescatarian" (["pescatarian"].map lower) = true ∧
    keeps "Vegan" [] []
      ⟨"Lunch", "Chickpea & quinoa bowl", "High fibre", ["vegan", "vegetarian"]⟩ = false :=
  ⟨((C5_amended "pescatarian" [] []
      ⟨"Lunch", "Tuna & mixed bean salad", "Pescatarian, <15m", ["pescatarian"]⟩
      (by decide) (by decide)).1).mpr (by decide),
   (C5_amended "Vegan" [] []
      ⟨"Lunch", "Chickpea & quinoa bowl", "High fibre", ["vegan", "vegetarian"]⟩
      (by decide) (by decide)).2 (by decide)⟩

/-- Lower-casing the empty string yields the empty string. -/
theorem lower_empty : lower "" = "" := rfl

/-- C10: a preference set containing the empty string admits every entry
through the soft preference gate (the empty string is a substring of every
idea text), so prefs = {""} is a non-empty preference set that behaves
exactly as if no preference filtering were requested. -/
theorem C10_empty_pref (diet : String) (allergies : List String)
    (cook_time budget : String) :
    (∀ tags_l idea_l, prefKeeps [""] tags_l idea_l = true) ∧
    filter_meals diet allergies [""] cook_time budget =
      filter_meals diet allergies [] cook_time budget := by
  have hgate : ∀ tags_l idea_l, prefKeeps [""] tags_l idea_l = true := by
    intro tags_l idea_l
    simp [prefKeeps, lower_empty, strIn_empty]
  refine ⟨hgate, ?_⟩
  have hkeep : ∀ e ∈ MEALS, keeps diet allergies [""] e = keeps diet allergies [] e := by
    intro e _
    simp only [keeps]
    rw [hgate, show prefKeeps [] (e.tags.map lower) (lower e.idea) = true from rfl]
  rw [filter_meals_eq, filter_meals_eq, List.filter_congr hkeep]

/-- C6: the allergy gate drops an entry iff some allergy token is a
case-insensitive literal substring of the entry's idea text, or its
lower-casing equals one of the six special cases with one of that case's
keywords appearing as a substring of the lower-cased idea text; a blocked
entry is dropped regardless of the other gates; in particular with allergies
{"nuts"} every entry whose lower-cased idea text contains a nut keyword is
dropped, for any diet and preferences. -/
theorem C6_allergy (allergies : List String) (e : CatalogEntry)
    (diet : String) (prefs : List String) :
    (blocked allergies (lower e.idea) = true ↔
      ∃ a ∈ allergies,
        strIn (lower a) (lower e.idea) = true ∨
        (lower a = "dairy" ∧ ∃ k ∈ (["yogurt", "paneer", "cheese", "milk"] : List String),
          strIn k (lower e.idea) = true) ∨
        (lower a = "eggs" ∧ strIn "egg" (lower e.idea) = true) ∨
        (lower a = "shellfish" ∧ ∃ k ∈ (["prawn", "shrimp", "crab", "lobster"] : List String),
          strIn k (lower e.idea) = true) ∨
        (lower a = "soy" ∧ strIn "tofu" (lower e.idea) = true) ∨
        (lower a = "gluten" ∧ ∃ k ∈ (["bread", "wrap", "pasta", "wheat"] : List String),
          strIn k (lower e.idea) = true) ∨
        (lower a = "nuts" ∧ ∃ k ∈ (["almond", "peanut", "cashew", "walnut", "nut"] : List String),
          strIn k (lower e.idea) = true)) ∧
    (blocked allergies (lower e.idea) = true → keeps diet allergies prefs e = false) ∧
    ((∃ k ∈ (["almond", "peanut", "cashew", "walnut", "nut"] : List String),
        strIn k (lower e.idea) = true) →
      keeps diet ["nuts"] prefs e = false) := by
  refine ⟨?_, ?_, ?_⟩
  · simp only [blocked, allergyBlocks, List.any_eq_true, Bool.or_eq_true,
      Bool.and_eq_true, decide_eq_true_eq, or_assoc]
  · intro h
    simp [keeps, h]
  · intro hk
    have hb : allergyBlocks (lower e.idea) "nuts" = true := by
      simp only [allergyBlocks, Bool.or_eq_true, Bool.and_eq_true, decide_eq_true_eq,
        List.any_eq_true]
      exact Or.inr ⟨by decide, hk⟩
    have hbl : blocked ["nuts"] (lower e.idea) = true := by
      simp [blocked, hb]
    simp [keeps, hbl]

/-- Witness for C6 at concrete inputs: the yogurt entry is blocked for the
dairy allergy and hence dropped, and the almond entry is dropped for the
nuts allergy even though it is tagged vegan. -/
theorem C6_allergy_witness :
    keeps "" ["dairy"] []
      ⟨"Breakfast", "Greek yogurt with berries & chia", "High protein", ["vegetarian"]⟩
        = false ∧
    keeps "vegan" ["nuts"] []
      ⟨"Snack", "Apple + almonds", "Fiber + fats", ["vegan", "vegetarian", "regular"]⟩
        = false :=
  ⟨(C6_allergy ["dairy"]
      ⟨"Breakfast", "Greek yogurt with berries & chia", "High protein", ["vegetarian"]⟩
      "" []).2.1 (by decide),
   (C6_allergy ["nuts"]
      ⟨"Snack", "Apple + almonds", "Fiber + fats", ["vegan", "vegetarian", "regular"]⟩
      "vegan" []).2.2 (by decide)⟩

/-- Splitting on tabs always yields at least one field. -/
theorem splitTabL_ne_nil : ∀ l : List Char, splitTabL l ≠ []
  | [] => by simp [splitTabL]
  | c :: t => by
    simp only [splitTabL]
    by_cases h : c = '\t'
    · simp [h]
    · rcases hs : splitTabL t with _ | ⟨h0, r⟩
      · simp [h, hs]
      · simp [h, hs]

/-- C9 (spec-modelled): a tab-delimited line "rs1234\tAG\tother", where the
Reference Table maps rs1234 to trait "Lactase Persistence" with genotype AG
mapped to effect "reduced", yields exactly the detected-trait string
"Lactase Persistence (reduced)"; a line whose marker id is absent from the
table, or whose genotype code is absent from the found record's mapping,
yields no output (and, being a total function, raises no error). -/
theorem C9_marker_scan (table : List MarkerRecord) (line : String) :
    parse_markers [⟨"rs1234", "Lactase Persistence", [("AG", "reduced")]⟩]
      ["rs1234\tAG\tother"] = ["Lactase Persistence (reduced)"] ∧
    (table.find? (fun r => r.marker_id = (splitTab line).headD "") = none →
      parse_marker_line table line = none) ∧
    (∀ r0, table.find? (fun r => r.marker_id = (splitTab line).headD "") = some r0 →
      lookupEffect r0.genotype_effects ((splitTab line).getD 1 "") = none →
      parse_marker_line table line = none) := by
  refine ⟨by decide, ?_, ?_⟩
  · intro h
    rcases hs : splitTab line with _ | ⟨f0, rest⟩
    · have hnil : splitTabL line.toList = [] := by simpa [splitTab] using hs
      exact absurd hnil (splitTabL_ne_nil line.toList)
    · rw [hs, List.headD_cons] at h
      simp only [parse_marker_line, hs]
      split
      · rcases rest with _ | ⟨f1, rest2⟩
        · rfl
        · simp [h]
      · rfl
  · intro r0 hfind heff
    rcases hs : splitTab line with _ | ⟨f0, rest⟩
    · have hnil : splitTabL line.toList = [] := by simpa [splitTab] using hs
      exact absurd hnil (splitTabL_ne_nil line.toList)
    · rw [hs, List.headD_cons] at hfind
      simp only [parse_marker_line, hs]
      split
      · rcases rest with _ | ⟨f1, rest2⟩
        · rfl
        · rw [hs] at heff
          simp only [List.getD_cons_succ, List.getD_cons_zero] at heff
          simp [hfind, heff]
      · rfl

/-- Witness for C9: against the one-record table, a line with an unknown
marker id and a line with an unknown genotype code both yield nothing. -/
theorem C9_marker_scan_witness :
    parse_marker_line [⟨"rs1234", "Lactase Persistence", [("AG", "reduced")]⟩]
      "rs9999\tAG\tother" = none ∧
    parse_marker_line [⟨"rs1234", "Lactase Persistence", [("AG", "reduced")]⟩]
      "rs1234\tGG\tother" = none :=
  ⟨(C9_marker_scan [⟨"rs1234", "Lactase Persistence", [("AG", "reduced")]⟩]
      "rs9999\tAG\tother").2.1 (by decide),
   (C9_marker_scan [⟨"rs1234", "Lactase Persistence", [("AG", "reduced")]⟩]
      "rs1234\tGG\tother").2.2
      ⟨"rs1234", "Lactase Persistence", [("AG", "reduced")]⟩ (by decide) (by decide)⟩
